import Mathlib

/-!
Verification development for the proxysmart monitoring scripts.

The definitions below are a shallow embedding of the Python source:
dynamic JSON-ish values become `PyVal`, device records become `Modem`,
timestamps and counts become `Int`, network effects become explicit
environment records, and fallible operations return `Option`/`Except`.
-/

namespace Proxysmart

/-- A dynamic Python/JSON value as it occurs in the device records:
`None`, a boolean, an integer, or a string. -/
inductive PyVal
  | vNone
  | vBool (b : Bool)
  | vInt (n : Int)
  | vStr (s : String)
  deriving DecidableEq

/-- Python `str(v)` on a `PyVal`. -/
def pyStr : PyVal → String
  | .vNone => "None"
  | .vBool true => "True"
  | .vBool false => "False"
  | .vInt n => toString n
  | .vStr s => s

/-- Python truthiness `bool(v)` on a `PyVal`. -/
def pyTruthy : PyVal → Bool
  | .vNone => false
  | .vBool b => b
  | .vInt n => n != 0
  | .vStr s => s != ""

/-- Python whitespace characters (the set stripped by `str.strip` and
matched by the regex class `\s`). -/
def pyIsSpace (c : Char) : Bool :=
  c = ' ' || c = '\t' || c = '\n' || c = '\x0d' || c = '\x0b' || c = '\x0c'

/-- `l.strip()` at the character-list level: drop whitespace from both ends. -/
def trimList (l : List Char) : List Char :=
  ((l.dropWhile pyIsSpace).reverse.dropWhile pyIsSpace).reverse

/-- ASCII lower-casing of one character (`str.lower` restricted to the
ASCII range the vendor strings use). -/
def lowerChar (c : Char) : Char :=
  if 'A' ≤ c ∧ c ≤ 'Z' then Char.ofNat (c.toNat + 32) else c

/-- Python `s.strip()`. -/
def pyStrip (s : String) : String :=
  ⟨trimList s.data⟩

/-- Python `s.lower()`. -/
def pyLower (s : String) : String :=
  ⟨s.data.map lowerChar⟩

/-- Python `s.replace(" ", "")`: remove every space character. -/
def pyRemoveSpaces (s : String) : String :=
  ⟨s.data.filter (fun c => c ≠ ' ')⟩

/-- A device record as consumed by the monitoring scripts.  Fields mirror
the JSON paths used by the code: `modem_details.IMEI`, `net_details.DEV`,
`net_details.IS_ONLINE`, top-level `IS_LOCKED` / `IS_REBOOTING` /
`IS_ROTATED`, and `android.battery`.  `none` models an absent key. -/
structure Modem where
  imei : String
  dev : String
  is_online : Option PyVal
  is_locked : Option PyVal
  is_rebooting : Option PyVal
  is_rotated : Option PyVal
  battery : Option PyVal
  deriving DecidableEq

/-- `modem_key` from `ping/app.py`: the `(IMEI, DEV)` pair of a record. -/
def modem_key (m : Modem) : String × String :=
  (m.imei, m.dev)

/-- The `online_status` computation inside `is_offline` (`ping/app.py`):
booleans are taken as-is, numbers via `bool`, everything else via
`str(v).strip().lower()` membership in the accepted token set. -/
def online_status (m : Modem) : Bool :=
  let is_online_val := m.is_online.getD (.vStr "no")
  match is_online_val with
  | .vBool b => b
  | .vInt n => n != 0
  | v =>
      let s := pyLower (pyStrip (pyStr v))
      ["yes", "true", "1", "ok", "online"].contains s

/-- The busy-flag test inside `is_offline`:
`str(modem.get(FLAG, "false")).lower() == "true"`. -/
def flag_is_true (v : Option PyVal) : Bool :=
  pyLower (pyStr (v.getD (.vStr "false"))) == "true"

/-- `is_offline` from `ping/app.py`: a modem needs recovery iff it is not
online and none of the busy flags stringifies to `"true"`. -/
def is_offline (m : Modem) : Bool :=
  if online_status m then false
  else
    let is_locked := flag_is_true m.is_locked
    let is_rebooting := flag_is_true m.is_rebooting
    let is_rotated := flag_is_true m.is_rotated
    if is_locked || is_rebooting || is_rotated then false
    else true

/-- Numeric value of a list of decimal digit characters (Python
`int(digits)` on a nonempty all-digit string). -/
def natOfDigits (l : List Char) : Nat :=
  l.foldl (fun a c => a * 10 + (c.toNat - 48)) 0

/-- The `%`-sign removal of `get_battery_percent`:
`if s.endswith("%"): s = s[:-1].strip()`. -/
def stripPercent (s : List Char) : List Char :=
  match s.reverse with
  | '%' :: r => trimList r.reverse
  | _ => s

/-- Character-level digit semantics of the Python runtime: `isdigit` is
per-character `str.isdigit`, and `decVal` is the decimal value `int()`
assigns to a character, `none` when `int()` rejects it.  Unicode has
digit characters with no decimal value (e.g. the superscript `'²'`, on
which `int()` raises ValueError) and decimal digits beyond ASCII (e.g.
Arabic-Indic `'٥'`, which `int()` reads as 5).  These tables live in the
Python runtime, not in the program, so the battery functions are
parametrized by them; theorems quantify over every such table. -/
structure DigitSemantics where
  isdigit : Char → Bool
  decVal : Char → Option Nat

/-- The digit semantics restricted to the characters exercised in the
concrete computations below, matching CPython: ASCII digits and
Arabic-Indic digits are decimal digits with their usual values, and the
superscript two satisfies `isdigit` but has no decimal value. -/
def unicodeDigits : DigitSemantics where
  isdigit c := c.isDigit || ('٠' ≤ c && c ≤ '٩') || c = '²'
  decVal c :=
    if c.isDigit then some (c.toNat - 48)
    else if '٠' ≤ c && c ≤ '٩' then some (c.toNat - 1632)
    else none

/-- Python `int(digits)` on the digit-filtered string: succeeds iff
every character carries a decimal value, yielding the base-10 reading;
`none` models the ValueError raised when some digit character is not a
decimal digit. -/
def pyInt (U : DigitSemantics) (l : List Char) : Option Nat :=
  if l.all (fun c => (U.decVal c).isSome) then
    some (l.foldl (fun a c => a * 10 + (U.decVal c).getD 0) 0)
  else none

/-- The string branch shared by both `get_battery_percent` variants up
to the `int(digits)` call: strip, drop a trailing `%` (stripping again),
keep the `isdigit` characters.  `none` where the code returns `None`
before reaching `int` (all-blank input, or no digit characters). -/
def batteryDigits (U : DigitSemantics) (l : List Char) : Option (List Char) :=
  if trimList l = [] then none
  else if (stripPercent (trimList l)).filter U.isdigit = [] then none
  else some ((stripPercent (trimList l)).filter U.isdigit)

/-- The string case of `get_battery_percent` from
`proxysmart_modems_check.py`: `int(digits)` is wrapped in `try/except`,
so a ValueError becomes `None`; the result is range-checked into
`0..100`. -/
def battery_of_chars (U : DigitSemantics) (l : List Char) : Option Int :=
  match batteryDigits U l with
  | none => none
  | some digits =>
    match pyInt U digits with
    | none => none
    | some i => if 0 ≤ (i : Int) ∧ (i : Int) ≤ 100 then some (i : Int) else none

/-- The string case of `get_battery_percent` from `ping/app.py`: the
same computation, but `int(digits)` is not guarded there, so a
ValueError propagates out of the function (modelled as `.error`). -/
def battery_of_chars_ping (U : DigitSemantics) (l : List Char) :
    Except String (Option Int) :=
  match batteryDigits U l with
  | none => .ok none
  | some digits =>
    match pyInt U digits with
    | none => .error "ValueError"
    | some i =>
        .ok (if 0 ≤ (i : Int) ∧ (i : Int) ≤ 100 then some (i : Int) else none)

/-- `get_battery_percent` from `proxysmart_modems_check.py`: `None` for
an absent or null field, numbers (including booleans, which Python
treats as ints) range-checked into `0..100`, strings parsed digit-wise
with every conversion error caught. -/
def get_battery_percent (U : DigitSemantics) (m : Modem) : Option Int :=
  match m.battery with
  | none => none
  | some v =>
    match v with
    | .vBool b =>
        let i : Int := if b then 1 else 0
        if 0 ≤ i ∧ i ≤ 100 then some i else none
    | .vInt n => if 0 ≤ n ∧ n ≤ 100 then some n else none
    | .vStr s => battery_of_chars U s.toList
    | .vNone => none

/-- `get_battery_percent` from `ping/app.py`: identical to the
`proxysmart_modems_check.py` variant except that the string branch has
no `try/except` around `int(digits)`, so it can raise. -/
def get_battery_percent_ping (U : DigitSemantics) (m : Modem) :
    Except String (Option Int) :=
  match m.battery with
  | none => .ok none
  | some v =>
    match v with
    | .vBool b =>
        let i : Int := if b then 1 else 0
        .ok (if 0 ≤ i ∧ i ≤ 100 then some i else none)
    | .vInt n => .ok (if 0 ≤ n ∧ n ≤ 100 then some n else none)
    | .vStr s => battery_of_chars_ping U s.toList
    | .vNone => .ok none

/-! ## Double-check gate (`ping/app.py`, `process_server`) -/

/-- `index_by_imei`: the dict built by iterating the snapshot and keeping,
for each nonempty IMEI, the last record bearing it.  Looking up `k`
returns that record, or `none` when no record has IMEI `k`. -/
def index_by_imei (modems : List Modem) (k : String) : Option Modem :=
  modems.reverse.find? (fun m => m.imei == k && m.imei != "")

/-- The provisional offline set `dead1` of `process_server`: records with a
nonempty IMEI classified offline on the first snapshot, as `(imei, dev)`
pairs in snapshot order. -/
def dead1 (modems : List Modem) : List (String × String) :=
  (modems.filter (fun m => m.imei != "" && is_offline m)).map modem_key

/-- The confirmed offline set `dead2` of `process_server`: members of the
provisional set that are absent from the second snapshot or still
classified offline there. -/
def dead2 (d1 : List (String × String)) (modems2 : List Modem) :
    List (String × String) :=
  d1.filter (fun p =>
    match index_by_imei modems2 p.1 with
    | none => true
    | some m2 => is_offline m2)

/-! ## Recovery orchestrator (`ping/app.py`) -/

/-- `check_modem_alive`: re-fetch the status list (`fetch` is the outcome
of that network call), look the IMEI up, and report alive iff the record
is present and not offline; any exception is swallowed and reported as
not alive. -/
def check_modem_alive (fetch : Except String (List Modem)) (imei : String) :
    Bool :=
  match fetch with
  | .error _ => false
  | .ok modems =>
    match index_by_imei modems imei with
    | none => false
    | some m => !(is_offline m)

/-- The three escalation actions of the recovery ladder. -/
inductive Act
  | reset
  | reboot
  | usbReset
  deriving DecidableEq

/-- Environment of one `recover_one_modem` run: whether each action HTTP
call raises (`some` error message) and the outcome of the status re-fetch
performed by each post-action recheck. -/
structure RecoveryEnv where
  resetErr : Option String
  rebootErr : Option String
  usbErr : Option String
  fetch1 : Except String (List Modem)
  fetch2 : Except String (List Modem)
  fetch3 : Except String (List Modem)

/-- Observable trace of one `recover_one_modem` run: the actions issued,
in order, and the notifications sent, in order. -/
structure RecoveryTrace where
  acts : List Act
  notifs : List String
  deriving DecidableEq

/-- Notification text abstractions for `recover_one_modem`. -/
def startMsg : Act → String
  | .reset => "start reset"
  | .reboot => "start reboot"
  | .usbReset => "start usb_reset"

/-- Success notification after a given step. -/
def okMsg : Act → String
  | .reset => "recovered after reset"
  | .reboot => "recovered after reboot"
  | .usbReset => "recovered after usb_reset"

/-- The give-up notification of step 4. -/
def giveUpMsg : String := "recovery failed"

/-- The failure notification of the outer `except` handler; it carries the
error text of the exception that aborted the sequence. -/
def errMsg (e : String) : String := "recovery scenario error: " ++ e

/-- `recover_one_modem` from `ping/app.py`: the escalation ladder
reset → reboot → usb-reset, halting at the first recheck that reports the
modem alive; an exception raised by an action propagates to the outer
handler, which sends a failure notification carrying the error. -/
def recover_one_modem (env : RecoveryEnv) (imei : String) : RecoveryTrace :=
  match env.resetErr with
  | some e => ⟨[.reset], [startMsg .reset, errMsg e]⟩
  | none =>
    if check_modem_alive env.fetch1 imei then
      ⟨[.reset], [startMsg .reset, okMsg .reset]⟩
    else
      match env.rebootErr with
      | some e =>
          ⟨[.reset, .reboot], [startMsg .reset, startMsg .reboot, errMsg e]⟩
      | none =>
        if check_modem_alive env.fetch2 imei then
          ⟨[.reset, .reboot], [startMsg .reset, startMsg .reboot, okMsg .reboot]⟩
        else
          match env.usbErr with
          | some e =>
              ⟨[.reset, .reboot, .usbReset],
               [startMsg .reset, startMsg .reboot, startMsg .usbReset, errMsg e]⟩
          | none =>
            if check_modem_alive env.fetch3 imei then
              ⟨[.reset, .reboot, .usbReset],
               [startMsg .reset, startMsg .reboot, startMsg .usbReset,
                okMsg .usbReset]⟩
            else
              ⟨[.reset, .reboot, .usbReset],
               [startMsg .reset, startMsg .reboot, startMsg .usbReset,
                giveUpMsg]⟩

/-! ## Drift detector (`proxysmart_modems_list.py` `run_once`,
`delta/app.py` `run_once_for_server`) -/

/-- Persisted drift state: the confirmed count (`last_count`, `none`
before the first observation) and the optional pending block
`(value, first_seen)`. -/
structure DriftState where
  last_count : Option Int
  pending : Option (Int × Int)
  deriving DecidableEq

/-- A confirmed drift event `DriftConfirmed(old, new)`; emitting one sends
exactly one notification. -/
inductive DriftEvent
  | confirmed (old new : Int)
  deriving DecidableEq

/-- One drift-detection cycle (`run_once`): given the confirmation window
`W`, the prior state, the current time `now` and the observed count
`current`, return the new state and the events emitted (at most one). -/
def run_once (W : Int) (st : DriftState) (now current : Int) :
    DriftState × List DriftEvent :=
  match st.last_count with
  | none => (⟨some current, none⟩, [])
  | some last =>
    match st.pending with
    | some (pending_value, first_seen) =>
      if current = pending_value then
        if now - first_seen ≥ W then
          (⟨some pending_value, none⟩, [.confirmed last pending_value])
        else (st, [])
      else (⟨some last, some (current, now)⟩, [])
    | none =>
      if current ≠ last then (⟨some last, some (current, now)⟩, [])
      else (st, [])

/-- Fold `run_once` over a stream of timestamped observations, collecting
all emitted events. -/
def runSeq (W : Int) (st : DriftState) (obs : List (Int × Int)) :
    DriftState × List DriftEvent :=
  obs.foldl (fun acc o =>
    let r := run_once W acc.1 o.1 o.2
    (r.1, acc.2 ++ r.2)) (st, [])

/-! ## Daily run-lock (`speed/app.py`, `db_start_run`) -/

/-- Status of a `(server, calendar-day)` row in `speedtest_runs`. -/
inductive RunStatus
  | running
  | success
  | failed
  deriving DecidableEq

/-- `db_start_run` from `speed/app.py`, modelled on the row for one
`(server_id, run_date_local)` key: `existing` is the row's status before
the call (`none` when no row exists), `retryFailedRun` is the
`SPEED_RETRY_FAILED_RUN` flag.  Returns whether the run was acquired and
the row status afterwards.  The `INSERT .. ON CONFLICT DO NOTHING`
acquires iff no row existed; otherwise `running`/`success` rows are left
alone, and a `failed` row is re-marked `running` only under the flag. -/
def db_start_run (existing : Option RunStatus) (retryFailedRun : Bool) :
    Bool × Option RunStatus :=
  match existing with
  | none => (true, some .running)
  | some st =>
    if st = .running || st = .success then (false, some st)
    else if retryFailedRun then (true, some .running)
    else (false, some st)

/-! ## Rate parsing (`speed/app.py`) -/

/-- The number group `([0-9]+(?:\.[0-9]+)?)` of the rate regex, kept
syntactic: match a nonempty digit run, optionally followed by a dot and a
nonempty digit run, returning the integer digits, the fractional digits
(`[]` when the optional part is absent) and the unconsumed remainder. -/
def matchNumber (cs : List Char) :
    Option ((List Char × List Char) × List Char) :=
  if cs.takeWhile Char.isDigit = [] then none
  else
    match cs.dropWhile Char.isDigit with
    | '.' :: r =>
      if r.takeWhile Char.isDigit = [] then none
      else some ((cs.takeWhile Char.isDigit, r.takeWhile Char.isDigit),
                 r.dropWhile Char.isDigit)
    | rest => some ((cs.takeWhile Char.isDigit, []), rest)

/-- Python `float(m.group(1))` on the matched number: integer digits plus
fractional digits scaled by their count, as an exact rational. -/
def pyFloat (d : List Char × List Char) : ℚ :=
  (natOfDigits d.1 : ℚ) + (natOfDigits d.2 : ℚ) / 10 ^ d.2.length

/-- The anchored rate regex `^([0-9]+(?:\.[0-9]+)?)\s*(k|m|g)?bps$` with
the unit conversion of `parse_rate_to_mbps`: `k` divides by 1000, `g`
multiplies by 1000, a missing magnitude prefix is treated as `m`. -/
def matchRate (cs : List Char) : Option ℚ :=
  match matchNumber cs with
  | none => none
  | some (d, rest) =>
    match rest.dropWhile pyIsSpace with
    | ['k', 'b', 'p', 's'] => some (pyFloat d / 1000)
    | ['m', 'b', 'p', 's'] => some (pyFloat d)
    | ['g', 'b', 'p', 's'] => some (pyFloat d * 1000)
    | ['b', 'p', 's'] => some (pyFloat d)
    | _ => none

/-- The normalization prefix of `parse_rate_to_mbps` and `parse_ms`:
`str(v).strip().lower().replace(" ", "")`. -/
def normRate (v : String) : String :=
  pyRemoveSpaces (pyLower (pyStrip v))

/-- `parse_rate_to_mbps` from `speed/app.py`: `None` in, `None` out;
otherwise normalize and match the rate regex, yielding megabits per
second as an exact rational. -/
def parse_rate_to_mbps (v : Option String) : Option ℚ :=
  match v with
  | none => none
  | some v =>
    if normRate v = "" then none
    else matchRate (normRate v).toList

/-- The anchored latency regex `^([0-9]+(?:\.[0-9]+)?)ms$`. -/
def matchMs (cs : List Char) : Option ℚ :=
  match matchNumber cs with
  | none => none
  | some (d, rest) =>
    match rest with
    | ['m', 's'] => some (pyFloat d)
    | _ => none

/-- `parse_ms` from `speed/app.py`. -/
def parse_ms (v : Option String) : Option ℚ :=
  match v with
  | none => none
  | some v =>
    if normRate v = "" then none
    else matchMs (normRate v).toList

/-- The parse gate of one speedtest attempt in `run_for_server`: all three
fields must parse, otherwise the attempt raises `parse_failed` (recorded
as a failed attempt, never as a zero measurement). -/
def attempt_outcome (download upload ping : Option String) :
    Except String (ℚ × ℚ × ℚ) :=
  match parse_rate_to_mbps download, parse_rate_to_mbps upload, parse_ms ping with
  | some d, some u, some p => .ok (d, u, p)
  | _, _, _ => .error "parse_failed"


/-! ## Theorems -/

/-- C1: with confirmedCount 10 and window 300, observing 8 at t0 and 10
from t0+60 on does NOT stay silent: once the restarted window expires
(observation at t0+360), the code emits a spurious `DriftConfirmed(10,10)`
and sends its notification, because the pending-branch restarts the
window on any value change, including a return to the confirmed count.
The confirmed count itself does remain 10.  This evaluates the embedded
`run_once` logic at the failing observation stream. -/
theorem drift_false_positive_bug :
    runSeq 300 ⟨some 10, none⟩ [(0, 8), (60, 10), (360, 10)] =
      (⟨some 10, none⟩, [.confirmed 10 10]) := by
  decide

/-- C2: with confirmedCount 10 and window 300, observing 8 at `t0` and
again at `t0+305` emits exactly one `DriftConfirmed(10,8)` event (hence
one notification), sets the confirmed count to 8 and clears the pending
block. -/
theorem drift_confirmation (t0 : Int) :
    runSeq 300 ⟨some 10, none⟩ [(t0, 8), (t0 + 305, 8)] =
      (⟨some 8, none⟩, [.confirmed 10 8]) := by
  have h : t0 + 305 - t0 = (305 : Int) := by ring
  simp [runSeq, run_once, h]

/-- C7: acquire semantics of the daily run-lock.  With no existing row
the insert succeeds and the run is acquired; an existing `running` or
`success` row is never re-acquired; a `failed` row is re-acquired (and
re-marked `running`) exactly when failed-run retry is enabled. -/
theorem run_lock_acquire :
    (∀ r, db_start_run none r = (true, some .running))
    ∧ (∀ r, db_start_run (some .running) r = (false, some .running))
    ∧ (∀ r, db_start_run (some .success) r = (false, some .success))
    ∧ (∀ r, (db_start_run (some .failed) r).1 = r)
    ∧ db_start_run (some .failed) true = (true, some .running)
    ∧ db_start_run (some .failed) false = (false, some .failed) := by
  refine ⟨?_, ?_, ?_, ?_, rfl, rfl⟩ <;> intro r <;> cases r <;> rfl

/-- C4 counterexample: a record with raw online indicator `"no"` (not in
the accepted truthy set) and `IS_REBOOTING = 1` — a truthy representation
of the rebooting flag — IS classified offline, because the busy-flag test
only recognizes values whose string form lowercases to `"true"` and
`str(1) = "1"`.  This refutes "online=false and rebooting=true is never
classified offline, whatever truthy representation the flag uses". -/
theorem busy_suppression_counterexample :
    pyTruthy (.vInt 1) = true
    ∧ online_status ⟨"I1", "d1", some (.vStr "no"), none,
        some (.vInt 1), none, none⟩ = false
    ∧ is_offline ⟨"I1", "d1", some (.vStr "no"), none,
        some (.vInt 1), none, none⟩ = true := by
  decide

/-- C4 (amended): for every record that is not online, if some busy flag
(locked, rebooting, rotating) stringifies to `"true"` case-insensitively —
the representation the code recognizes — the classifier never reports
offline. -/
theorem busy_suppression (m : Modem)
    (h1 : online_status m = false)
    (h2 : (flag_is_true m.is_locked || flag_is_true m.is_rebooting ||
           flag_is_true m.is_rotated) = true) :
    is_offline m = false := by
  simp only [is_offline, h1]
  simp [h2]

/-- C4 witness: a concrete not-online record with boolean `True` rebooting
flag is not classified offline. -/
theorem busy_suppression_witness :
    is_offline ⟨"I1", "d1", some (.vStr "no"), none,
      some (.vBool true), none, none⟩ = false :=
  busy_suppression _ (by decide) (by decide)

/-- C5: the double-check gate.  A device is confirmed offline iff it is
in the provisional set of the first snapshot and every record bearing its
IMEI in the second snapshot is still classified offline (vacuously so
when it is absent); the confirmed set is a sublist of the provisional
one; and a device that is alive in the second snapshot is never confirmed
(hence receives no recovery task and no notification). -/
theorem double_check_gate (modems modems2 : List Modem)
    (p : String × String) :
    (p ∈ dead2 (dead1 modems) modems2 ↔
       p ∈ dead1 modems ∧
         (∀ m2, index_by_imei modems2 p.1 = some m2 → is_offline m2 = true))
    ∧ dead2 (dead1 modems) modems2 ⊆ dead1 modems
    ∧ (∀ m2, index_by_imei modems2 p.1 = some m2 → is_offline m2 = false →
         p ∉ dead2 (dead1 modems) modems2) := by
  have hq : ∀ q : String × String,
      ((match index_by_imei modems2 q.1 with
        | none => true
        | some m2 => is_offline m2) = true ↔
       (∀ m2, index_by_imei modems2 q.1 = some m2 → is_offline m2 = true)) := by
    intro q
    cases h : index_by_imei modems2 q.1 <;> simp [h]
  refine ⟨?_, ?_, ?_⟩
  · rw [dead2, List.mem_filter, hq]
  · intro q hmem
    rw [dead2, List.mem_filter] at hmem
    exact hmem.1
  · intro m2 hm hoff hmem
    rw [dead2, List.mem_filter, hq] at hmem
    have := hmem.2 m2 hm
    rw [hoff] at this
    exact Bool.false_ne_true this

/-- C5 witness: a device offline on the first poll (`IS_ONLINE = "no"`)
but alive on the second (`IS_ONLINE = "yes"`) is in the provisional set
yet not in the confirmed set. -/
theorem double_check_gate_witness :
    ("A", "d") ∈ dead1 [⟨"A", "d", some (.vStr "no"), none, none, none, none⟩]
    ∧ ("A", "d") ∉
        dead2 (dead1 [⟨"A", "d", some (.vStr "no"), none, none, none, none⟩])
          [⟨"A", "d", some (.vStr "yes"), none, none, none, none⟩] :=
  ⟨by decide,
   (double_check_gate
      [⟨"A", "d", some (.vStr "no"), none, none, none, none⟩]
      [⟨"A", "d", some (.vStr "yes"), none, none, none, none⟩]
      ("A", "d")).2.2
     ⟨"A", "d", some (.vStr "yes"), none, none, none, none⟩
     (by decide) (by decide)⟩

/-- C3 counterexample: with every post-action recheck failing with a
network error (and every action succeeding), the ladder does NOT abort:
`check_modem_alive` swallows the recheck error and reports not-alive, so
the sequence proceeds through reboot and usb-reset and ends with the
give-up notification — no failure notification carrying the error is ever
sent.  This refutes "a recheck error never causes the ladder to proceed
to the next, more invasive action". -/
theorem escalation_recheck_error_counterexample :
    Act.reboot ∈ (recover_one_modem
        ⟨none, none, none, .error "fetch failed", .error "fetch failed",
         .error "fetch failed"⟩ "I1").acts
    ∧ recover_one_modem
        ⟨none, none, none, .error "fetch failed", .error "fetch failed",
         .error "fetch failed"⟩ "I1" =
      ⟨[.reset, .reboot, .usbReset],
       [startMsg .reset, startMsg .reboot, startMsg .usbReset, giveUpMsg]⟩ := by
  decide

/-- C3 (amended): an error raised by a recovery action aborts that
device's sequence immediately with a failure notification carrying the
error and no internal retry; an error raised during a post-action recheck,
however, is swallowed by `check_modem_alive` (which reports not-alive), so
the ladder proceeds to the next, more invasive action. -/
theorem escalation_action_error_abort (env : RecoveryEnv)
    (imei e : String) :
    (env.resetErr = some e →
       recover_one_modem env imei =
         ⟨[.reset], [startMsg .reset, errMsg e]⟩)
    ∧ (env.resetErr = none → check_modem_alive env.fetch1 imei = false →
       env.rebootErr = some e →
       recover_one_modem env imei =
         ⟨[.reset, .reboot], [startMsg .reset, startMsg .reboot, errMsg e]⟩)
    ∧ (env.resetErr = none → check_modem_alive env.fetch1 imei = false →
       env.rebootErr = none → check_modem_alive env.fetch2 imei = false →
       env.usbErr = some e →
       recover_one_modem env imei =
         ⟨[.reset, .reboot, .usbReset],
          [startMsg .reset, startMsg .reboot, startMsg .usbReset, errMsg e]⟩)
    ∧ (∀ msg, check_modem_alive (.error msg) imei = false) := by
  refine ⟨?_, ?_, ?_, fun msg => rfl⟩
  · intro h1
    simp [recover_one_modem, h1]
  · intro h1 h2 h3
    simp [recover_one_modem, h1, h2, h3]
  · intro h1 h2 h3 h4 h5
    simp [recover_one_modem, h1, h2, h3, h4, h5]

/-- C3 witness: a reset action that raises `"boom"` yields exactly the
start notification and the failure notification carrying the error, with
no further actions. -/
theorem escalation_action_error_abort_witness :
    recover_one_modem
        ⟨some "boom", none, none, .ok [], .ok [], .ok []⟩ "I1" =
      ⟨[.reset], [startMsg .reset, errMsg "boom"]⟩ :=
  (escalation_action_error_abort
    ⟨some "boom", none, none, .ok [], .ok [], .ok []⟩ "I1" "boom").1 rfl

/-- C6: the escalation ladder short-circuits.  If the recheck after reset
reports the modem alive, the trace is exactly reset followed by the
success notification — reboot and usb-reset are never invoked; likewise
after reboot; and in every run the actions issued are one of the
in-order prefixes reset / reset-reboot / reset-reboot-usbreset. -/
theorem ladder_short_circuit (env : RecoveryEnv) (imei : String) :
    (env.resetErr = none → check_modem_alive env.fetch1 imei = true →
       recover_one_modem env imei =
         ⟨[.reset], [startMsg .reset, okMsg .reset]⟩)
    ∧ (env.resetErr = none → check_modem_alive env.fetch1 imei = false →
       env.rebootErr = none → check_modem_alive env.fetch2 imei = true →
       recover_one_modem env imei =
         ⟨[.reset, .reboot],
          [startMsg .reset, startMsg .reboot, okMsg .reboot]⟩)
    ∧ ((recover_one_modem env imei).acts = [.reset]
        ∨ (recover_one_modem env imei).acts = [.reset, .reboot]
        ∨ (recover_one_modem env imei).acts = [.reset, .reboot, .usbReset]) := by
  refine ⟨?_, ?_, ?_⟩
  · intro h1 h2
    simp [recover_one_modem, h1, h2]
  · intro h1 h2 h3 h4
    simp [recover_one_modem, h1, h2, h3, h4]
  · cases h1 : env.resetErr <;> cases h2 : env.rebootErr <;>
      cases h3 : env.usbErr <;>
      simp only [recover_one_modem, h1, h2, h3] <;>
      (try split_ifs) <;> simp

/-- C6 witness: with a successful reset and a recheck showing the modem
online, the trace is reset plus success notification only. -/
theorem ladder_short_circuit_witness :
    recover_one_modem
        ⟨none, none, none,
         .ok [⟨"A", "d", some (.vStr "yes"), none, none, none, none⟩],
         .ok [], .ok []⟩ "A" =
      ⟨[.reset], [startMsg .reset, okMsg .reset]⟩ :=
  (ladder_short_circuit
    ⟨none, none, none,
     .ok [⟨"A", "d", some (.vStr "yes"), none, none, none, none⟩],
     .ok [], .ok []⟩ "A").1 rfl (by decide)

/-- Characters surviving a strip are characters of the original list. -/
theorem mem_of_mem_trimList {a : Char} {l : List Char}
    (h : a ∈ trimList l) : a ∈ l := by
  unfold trimList at h
  rw [List.mem_reverse] at h
  have h2 := (List.dropWhile_sublist pyIsSpace).mem h
  rw [List.mem_reverse] at h2
  exact (List.dropWhile_sublist pyIsSpace).mem h2

/-- Characters surviving the `%`-removal are characters of the original
list. -/
theorem mem_of_mem_stripPercent {a : Char} {l : List Char}
    (h : a ∈ stripPercent l) : a ∈ l := by
  unfold stripPercent at h
  split at h
  next r heq =>
    have h2 := mem_of_mem_trimList h
    rw [List.mem_reverse] at h2
    have h3 : a ∈ l.reverse := by
      rw [heq]
      exact List.mem_cons_of_mem _ h2
    exact List.mem_reverse.mp h3
  next => exact h

/-- The `modems_check` string branch never leaves `0..100`. -/
theorem battery_of_chars_range (U : DigitSemantics) (l : List Char) :
    battery_of_chars U l = none ∨
      ∃ i, battery_of_chars U l = some i ∧ 0 ≤ i ∧ i ≤ 100 := by
  unfold battery_of_chars
  split
  · exact Or.inl rfl
  · split
    · exact Or.inl rfl
    · split_ifs with h
      · exact Or.inr ⟨_, rfl, h⟩
      · exact Or.inl rfl

/-- Every value the `ping` string branch returns (rather than raises)
lies in `0..100`. -/
theorem battery_of_chars_ping_ok (U : DigitSemantics) (l : List Char)
    (r : Option Int) (h : battery_of_chars_ping U l = .ok r) :
    r = none ∨ ∃ i, r = some i ∧ 0 ≤ i ∧ i ≤ 100 := by
  unfold battery_of_chars_ping at h
  split at h
  · injection h with h2
    exact Or.inl h2.symm
  · split at h
    · exact absurd h (by simp)
    · injection h with h2
      split_ifs at h2 with hcond
      · exact Or.inr ⟨_, h2.symm, hcond⟩
      · exact Or.inl h2.symm

/-- A string without `isdigit` characters is rejected before `int` is
reached, in both variants. -/
theorem batteryDigits_none_of_no_digit (U : DigitSemantics) (l : List Char)
    (h : ∀ c ∈ l, U.isdigit c = false) : batteryDigits U l = none := by
  have hfil : (stripPercent (trimList l)).filter U.isdigit = [] :=
    List.filter_eq_nil_iff.mpr (fun a ha => by
      have hmem := mem_of_mem_trimList (mem_of_mem_stripPercent ha)
      rw [h a hmem]
      exact Bool.false_ne_true)
  unfold batteryDigits
  rw [hfil]
  simp

/-- C10 counterexample: at battery `"²"` — a Python digit character with
no decimal value — the `ping/app.py` variant raises ValueError instead
of returning `None` or an integer (the `proxysmart_modems_check.py`
variant catches it and returns `None`); and the Arabic-Indic string
`"٥٠"`, which contains no ASCII digit, parses to 50 in both variants. -/
theorem battery_unicode_counterexample :
    unicodeDigits.isdigit '²' = true
    ∧ get_battery_percent_ping unicodeDigits
        ⟨"", "", none, none, none, none, some (.vStr "²")⟩
        = .error "ValueError"
    ∧ get_battery_percent unicodeDigits
        ⟨"", "", none, none, none, none, some (.vStr "²")⟩ = none
    ∧ "٥٠".data.filter Char.isDigit = []
    ∧ get_battery_percent unicodeDigits
        ⟨"", "", none, none, none, none, some (.vStr "٥٠")⟩ = some 50
    ∧ get_battery_percent_ping unicodeDigits
        ⟨"", "", none, none, none, none, some (.vStr "٥٠")⟩
        = .ok (some 50) :=
  ⟨rfl, rfl, rfl, rfl, rfl, rfl⟩

/-- C10 (amended): for every digit table, the
`proxysmart_modems_check.py` variant of `get_battery_percent` returns
`None` or an integer in `0..100` for any record; the `ping/app.py`
variant satisfies the same bound whenever it returns rather than
raises.  Out-of-range numbers, the empty string, and strings without
`isdigit` characters yield `None` in both variants. -/
theorem battery_range_invariant (U : DigitSemantics) (m : Modem) (n : Int)
    (s : String) :
    (get_battery_percent U m = none ∨
      ∃ i, get_battery_percent U m = some i ∧ 0 ≤ i ∧ i ≤ 100)
    ∧ (∀ r, get_battery_percent_ping U m = .ok r →
        r = none ∨ ∃ i, r = some i ∧ 0 ≤ i ∧ i ≤ 100)
    ∧ ((n < 0 ∨ 100 < n) →
        get_battery_percent U ⟨"", "", none, none, none, none, some (.vInt n)⟩
            = none
        ∧ get_battery_percent_ping U
            ⟨"", "", none, none, none, none, some (.vInt n)⟩ = .ok none)
    ∧ (get_battery_percent U ⟨"", "", none, none, none, none, some (.vStr "")⟩
          = none
       ∧ get_battery_percent_ping U
           ⟨"", "", none, none, none, none, some (.vStr "")⟩ = .ok none)
    ∧ ((∀ c ∈ s.data, U.isdigit c = false) →
        get_battery_percent U ⟨"", "", none, none, none, none, some (.vStr s)⟩
            = none
        ∧ get_battery_percent_ping U
            ⟨"", "", none, none, none, none, some (.vStr s)⟩ = .ok none) := by
  refine ⟨?_, ?_, ?_, ?_, ?_⟩
  · rcases hb : m.battery with _ | v
    · exact Or.inl (by simp [get_battery_percent, hb])
    · cases v with
      | vNone => exact Or.inl (by simp [get_battery_percent, hb])
      | vBool b =>
        cases b
        · exact Or.inr ⟨0, by norm_num [get_battery_percent, hb],
            by norm_num, by norm_num⟩
        · exact Or.inr ⟨1, by norm_num [get_battery_percent, hb],
            by norm_num, by norm_num⟩
      | vInt k =>
        simp only [get_battery_percent, hb]
        split_ifs with h
        · exact Or.inr ⟨_, rfl, h⟩
        · exact Or.inl rfl
      | vStr t =>
        simp only [get_battery_percent, hb]
        exact battery_of_chars_range U t.data
  · intro r h
    rcases hb : m.battery with _ | v
    · rw [get_battery_percent_ping, hb] at h
      injection h with h2
      exact Or.inl h2.symm
    · cases v with
      | vNone =>
        rw [get_battery_percent_ping, hb] at h
        injection h with h2
        exact Or.inl h2.symm
      | vBool b =>
        rw [get_battery_percent_ping, hb] at h
        cases b
        · simp at h
          subst h
          exact Or.inr ⟨0, rfl, by norm_num, by norm_num⟩
        · simp at h
          subst h
          exact Or.inr ⟨1, rfl, by norm_num, by norm_num⟩
      | vInt k =>
        rw [get_battery_percent_ping, hb] at h
        injection h with h2
        split_ifs at h2 with hcond
        · exact Or.inr ⟨_, h2.symm, hcond⟩
        · exact Or.inl h2.symm
      | vStr t =>
        rw [get_battery_percent_ping, hb] at h
        exact battery_of_chars_ping_ok U t.data r h
  · intro h
    constructor
    · simp only [get_battery_percent]
      rw [if_neg (by omega)]
    · simp only [get_battery_percent_ping]
      rw [if_neg (by omega)]
  · constructor
    · simp [get_battery_percent, battery_of_chars, batteryDigits, trimList]
    · simp [get_battery_percent_ping, battery_of_chars_ping, batteryDigits,
        trimList]
  · intro h
    have hbd := batteryDigits_none_of_no_digit U s.toList h
    constructor
    · simp only [get_battery_percent, battery_of_chars, hbd]
    · simp only [get_battery_percent_ping, battery_of_chars_ping, hbd]

/-- C10 witness: at the concrete digit table, battery `150` (out of
range) yields `None` in the `modems_check` variant, and battery `"abc"`
(no digit characters) yields `None` in the `ping` variant. -/
theorem battery_range_invariant_witness :
    get_battery_percent unicodeDigits
        ⟨"", "", none, none, none, none, some (.vInt 150)⟩ = none
    ∧ get_battery_percent_ping unicodeDigits
        ⟨"", "", none, none, none, none, some (.vStr "abc")⟩ = .ok none :=
  ⟨((battery_range_invariant unicodeDigits
      ⟨"", "", none, none, none, none, some (.vInt 150)⟩ 150 "abc").2.2.1
      (Or.inr (by norm_num))).1,
   ((battery_range_invariant unicodeDigits
      ⟨"", "", none, none, none, none, some (.vInt 150)⟩ 150 "abc").2.2.2.2
      (by decide)).2⟩


/-- A successful number match leaves a suffix of the input unconsumed. -/
theorem matchNumber_append {cs : List Char} {d : List Char × List Char}
    {rest : List Char}
    (h : matchNumber cs = some (d, rest)) : ∃ pre, cs = pre ++ rest := by
  unfold matchNumber at h
  split_ifs at h with h1
  split at h
  next r heq =>
    split_ifs at h with h2
    rw [Option.some_inj, Prod.mk.injEq] at h
    refine ⟨cs.takeWhile Char.isDigit ++ '.' :: r.takeWhile Char.isDigit, ?_⟩
    rw [← h.2]
    calc cs = cs.takeWhile Char.isDigit ++ cs.dropWhile Char.isDigit :=
          (List.takeWhile_append_dropWhile Char.isDigit cs).symm
      _ = cs.takeWhile Char.isDigit ++ '.' :: r := by rw [heq]
      _ = cs.takeWhile Char.isDigit ++
            '.' :: (r.takeWhile Char.isDigit ++ r.dropWhile Char.isDigit) := by
          rw [List.takeWhile_append_dropWhile]
      _ = (cs.takeWhile Char.isDigit ++ '.' :: r.takeWhile Char.isDigit) ++
            r.dropWhile Char.isDigit := by simp
  next heq =>
    rw [Option.some_inj, Prod.mk.injEq] at h
    refine ⟨cs.takeWhile Char.isDigit, ?_⟩
    rw [← h.2]
    exact (List.takeWhile_append_dropWhile Char.isDigit cs).symm

/-- A string accepted by the rate regex ends in `bps`. -/
theorem matchRate_bps_suffix {cs : List Char} {q : ℚ}
    (h : matchRate cs = some q) : ∃ pre, cs = pre ++ ['b', 'p', 's'] := by
  unfold matchRate at h
  split at h
  · exact absurd h (by simp)
  next d rest heq =>
    obtain ⟨pre1, hcs⟩ := matchNumber_append heq
    have hrest : rest = rest.takeWhile pyIsSpace ++ rest.dropWhile pyIsSpace :=
      (List.takeWhile_append_dropWhile pyIsSpace rest).symm
    split at h
    · next hk =>
        have hsplit : rest = rest.takeWhile pyIsSpace ++ ['k', 'b', 'p', 's'] := by
          conv_lhs => rw [hrest, hk]
        refine ⟨pre1 ++ (rest.takeWhile pyIsSpace ++ ['k']), ?_⟩
        rw [hcs]
        conv_lhs => rw [hsplit]
        simp
    · next hm =>
        have hsplit : rest = rest.takeWhile pyIsSpace ++ ['m', 'b', 'p', 's'] := by
          conv_lhs => rw [hrest, hm]
        refine ⟨pre1 ++ (rest.takeWhile pyIsSpace ++ ['m']), ?_⟩
        rw [hcs]
        conv_lhs => rw [hsplit]
        simp
    · next hg =>
        have hsplit : rest = rest.takeWhile pyIsSpace ++ ['g', 'b', 'p', 's'] := by
          conv_lhs => rw [hrest, hg]
        refine ⟨pre1 ++ (rest.takeWhile pyIsSpace ++ ['g']), ?_⟩
        rw [hcs]
        conv_lhs => rw [hsplit]
        simp
    · next hb =>
        have hsplit : rest = rest.takeWhile pyIsSpace ++ ['b', 'p', 's'] := by
          conv_lhs => rw [hrest, hb]
        refine ⟨pre1 ++ rest.takeWhile pyIsSpace, ?_⟩
        rw [hcs]
        conv_lhs => rw [hsplit]
        simp
    · exact absurd h (by simp)

/-- Evaluation helper: once the regex stage is computed, the parse is the
unit-conversion of the matched number. -/
theorem parse_rate_eval {v : String} {d : List Char × List Char}
    {rest : List Char}
    (hne : ¬ normRate v = "")
    (hn : matchNumber (normRate v).toList = some (d, rest)) :
    parse_rate_to_mbps (some v) =
      match rest.dropWhile pyIsSpace with
      | ['k', 'b', 'p', 's'] => some (pyFloat d / 1000)
      | ['m', 'b', 'p', 's'] => some (pyFloat d)
      | ['g', 'b', 'p', 's'] => some (pyFloat d * 1000)
      | ['b', 'p', 's'] => some (pyFloat d)
      | _ => none := by
  simp only [parse_rate_to_mbps, if_neg hne, matchRate, hn]

/-- C8: rate parsing.  `"52.79mbps"` parses to 52.79, `"120 kbps"` to
0.12, `"1.2 gbps"` to 1200; every successfully parsed string ends (after
normalization) in the unit suffix `bps`, so a string without that suffix
yields `None`; and a `None` download parse makes the speedtest attempt
surface a `parse_failed` error instead of recording a number. -/
theorem rate_parsing :
    parse_rate_to_mbps (some "52.79mbps") = some (5279 / 100 : ℚ)
    ∧ parse_rate_to_mbps (some "120 kbps") = some (12 / 100 : ℚ)
    ∧ parse_rate_to_mbps (some "1.2 gbps") = some 1200
    ∧ (∀ v q, parse_rate_to_mbps (some v) = some q →
        ∃ pre, (normRate v).data = pre ++ ['b', 'p', 's'])
    ∧ (∀ d u p, parse_rate_to_mbps d = none →
        attempt_outcome d u p = .error "parse_failed") := by
  refine ⟨?_, ?_, ?_, ?_, ?_⟩
  · have h1 : natOfDigits ['5', '2'] = 52 := by decide
    have h2 : natOfDigits ['7', '9'] = 79 := by decide
    rw [@parse_rate_eval "52.79mbps" (['5', '2'], ['7', '9'])
        ['m', 'b', 'p', 's'] (by decide) (by decide)]
    show some (pyFloat (['5', '2'], ['7', '9'])) = some (5279 / 100 : ℚ)
    simp only [pyFloat, h1, h2]
    norm_num
  · have h1 : natOfDigits ['1', '2', '0'] = 120 := by decide
    have h2 : natOfDigits ([] : List Char) = 0 := by decide
    rw [@parse_rate_eval "120 kbps" (['1', '2', '0'], [])
        ['k', 'b', 'p', 's'] (by decide) (by decide)]
    show some (pyFloat (['1', '2', '0'], []) / 1000) = some (12 / 100 : ℚ)
    simp only [pyFloat, h1, h2]
    norm_num
  · have h1 : natOfDigits ['1'] = 1 := by decide
    have h2 : natOfDigits ['2'] = 2 := by decide
    rw [@parse_rate_eval "1.2 gbps" (['1'], ['2'])
        ['g', 'b', 'p', 's'] (by decide) (by decide)]
    show some (pyFloat (['1'], ['2']) * 1000) = some (1200 : ℚ)
    simp only [pyFloat, h1, h2]
    norm_num
  · intro v q h
    simp only [parse_rate_to_mbps] at h
    split_ifs at h with h1
    exact matchRate_bps_suffix h
  · intro d u p h
    unfold attempt_outcome
    rw [h]

/-- C8 witness: an unparseable download value surfaces as a parse
failure. -/
theorem rate_parsing_witness :
    attempt_outcome none none none = .error "parse_failed" :=
  rate_parsing.2.2.2.2 none none none rfl

/-- `takeWhile` runs past a block that satisfies the predicate. -/
theorem takeWhile_append_all (p : Char → Bool) (l r : List Char)
    (h : ∀ c ∈ l, p c = true) :
    (l ++ r).takeWhile p = l ++ r.takeWhile p := by
  induction l with
  | nil => simp
  | cons a t ih =>
    have ha := h a (List.mem_cons_self a t)
    have ht : ∀ c ∈ t, p c = true := fun c hc => h c (List.mem_cons_of_mem a hc)
    simp [List.takeWhile_cons, ha, ih ht]

/-- `dropWhile` drops a whole block that satisfies the predicate. -/
theorem dropWhile_append_all (p : Char → Bool) (l r : List Char)
    (h : ∀ c ∈ l, p c = true) :
    (l ++ r).dropWhile p = r.dropWhile p := by
  induction l with
  | nil => simp
  | cons a t ih =>
    have ha := h a (List.mem_cons_self a t)
    have ht : ∀ c ∈ t, p c = true := fun c hc => h c (List.mem_cons_of_mem a hc)
    simp [List.dropWhile_cons, ha, ih ht]

/-- C9: the bare-`bps` default.  A digit string suffixed with plain
`bps` — no `k`/`m`/`g` magnitude prefix — is accepted and its number is
returned unchanged (treated as megabits per second already), both without
and with a fractional part; concretely `"52.79bps"` parses to 52.79. -/
theorem bare_bps_default (intD fracD : List Char) :
    (intD ≠ [] → (∀ c ∈ intD, c.isDigit = true) →
       matchRate (intD ++ ['b', 'p', 's']) = some (pyFloat (intD, [])))
    ∧ (intD ≠ [] → fracD ≠ [] → (∀ c ∈ intD, c.isDigit = true) →
       (∀ c ∈ fracD, c.isDigit = true) →
       matchRate (intD ++ ('.' :: (fracD ++ ['b', 'p', 's']))) =
         some (pyFloat (intD, fracD)))
    ∧ parse_rate_to_mbps (some "52.79bps") = some (5279 / 100 : ℚ) := by
  refine ⟨?_, ?_, ?_⟩
  · intro h1 h2
    have htw : (intD ++ ['b', 'p', 's']).takeWhile Char.isDigit = intD := by
      rw [takeWhile_append_all Char.isDigit intD _ h2]
      simp [List.takeWhile_cons]
    have hdw : (intD ++ ['b', 'p', 's']).dropWhile Char.isDigit =
        ['b', 'p', 's'] := by
      rw [dropWhile_append_all Char.isDigit intD _ h2]
      simp [List.dropWhile_cons]
    unfold matchRate matchNumber
    rw [htw, hdw, if_neg h1]
    rfl
  · intro h1 h2 h3 h4
    have htw : (intD ++ ('.' :: (fracD ++ ['b', 'p', 's']))).takeWhile
        Char.isDigit = intD := by
      rw [takeWhile_append_all Char.isDigit intD _ h3]
      simp [List.takeWhile_cons]
    have hdw : (intD ++ ('.' :: (fracD ++ ['b', 'p', 's']))).dropWhile
        Char.isDigit = '.' :: (fracD ++ ['b', 'p', 's']) := by
      rw [dropWhile_append_all Char.isDigit intD _ h3]
      simp [List.dropWhile_cons]
    have htw2 : (fracD ++ ['b', 'p', 's']).takeWhile Char.isDigit = fracD := by
      rw [takeWhile_append_all Char.isDigit fracD _ h4]
      simp [List.takeWhile_cons]
    have hdw2 : (fracD ++ ['b', 'p', 's']).dropWhile Char.isDigit =
        ['b', 'p', 's'] := by
      rw [dropWhile_append_all Char.isDigit fracD _ h4]
      simp [List.dropWhile_cons]
    have hmn : matchNumber (intD ++ ('.' :: (fracD ++ ['b', 'p', 's']))) =
        some ((intD, fracD), ['b', 'p', 's']) := by
      unfold matchNumber
      rw [htw, hdw, if_neg h1]
      show (if (fracD ++ ['b', 'p', 's']).takeWhile Char.isDigit = []
            then none
            else some
              ((intD, (fracD ++ ['b', 'p', 's']).takeWhile Char.isDigit),
               (fracD ++ ['b', 'p', 's']).dropWhile Char.isDigit))
          = some ((intD, fracD), ['b', 'p', 's'])
      rw [htw2, hdw2, if_neg h2]
    unfold matchRate
    rw [hmn]
    rfl
  · have h1 : natOfDigits ['5', '2'] = 52 := by decide
    have h2 : natOfDigits ['7', '9'] = 79 := by decide
    rw [@parse_rate_eval "52.79bps" (['5', '2'], ['7', '9'])
        ['b', 'p', 's'] (by decide) (by decide)]
    show some (pyFloat (['5', '2'], ['7', '9'])) = some (5279 / 100 : ℚ)
    simp only [pyFloat, h1, h2]
    norm_num

/-- C9 witness: `matchRate` on `"5bps"` returns the number 5 unchanged. -/
theorem bare_bps_default_witness :
    matchRate (['5'] ++ ['b', 'p', 's']) = some (pyFloat (['5'], [])) :=
  (bare_bps_default ['5'] []).1 (by decide) (by decide)


end Proxysmart
